import Mathlib

/-!
# Verification of the daytrade-partner-data backend

Shallow embedding of the parts of the service exercised by the claims:
the outlook engine (sentiment determination and rolling returns), the
catalyst calendar generator, the news date filter, symbol normalization,
the behavior-pattern engine, the mock ticker service and mock price
provider, the `/explain` response wiring, and the outlook composer
metadata wrapper.

Conventions used throughout:
* Python floats are modelled as rationals (`ℚ`).
* UTC instants are modelled as integer seconds (`ℤ`); a calendar date in
  the pattern engine is a `(year, month)` pair.
* Python strings are modelled as `String` where only equality matters,
  and as lists of codepoints (`List ℕ`) where character-level operations
  (uppercasing, stripping) matter.
* pydantic validation of required model fields is modelled by comparing
  the list of field names passed to a constructor against the list of
  field names the model declares as required (fields declared with
  `Field(...)` and no default); a constructor call missing a required
  field raises a validation error.
* Randomness (mock jitter, random volume) is passed in as explicit
  parameters.
-/

namespace DayTrade

/-! ## Shared helpers -/

/-- Rounding to `digits` decimal places, as used by `round(x, n)` in the
source (ties behave slightly differently: Python rounds half to even,
`round` here rounds half up; no claim depends on tie behavior). -/
def roundTo (q : ℚ) (digits : ℕ) : ℚ :=
  ((round (q * 10 ^ digits) : ℤ) : ℚ) / 10 ^ digits

/-- Model of pydantic required-field validation: every required field
name must be among the field names passed to the constructor. -/
def requiredFieldsCovered (required provided : List String) : Bool :=
  required.all (fun f => provided.contains f)

/-! ## Sentiment determination
(`app/services/outlook_engine.py`, `_determine_sentiment`, lines 58-75) -/

inductive Sentiment where
  | positive
  | mixed
  | cautious
deriving DecidableEq, Repr

/-- Embedding of `_determine_sentiment(hit_rate, recent_90d_return)`:
positive when `hit_rate > 0.55 and recent_90d_return > 0`, else cautious
when `hit_rate < 0.45 or recent_90d_return < -0.10`, else mixed. -/
def determineSentiment (hitRate recent90dReturn : ℚ) : Sentiment :=
  if 55 / 100 < hitRate ∧ 0 < recent90dReturn then .positive
  else if hitRate < 45 / 100 ∨ recent90dReturn < -(10 / 100) then .cautious
  else .mixed

/-! ## Rolling returns
(`app/services/outlook_engine.py`, `OutlookEngine._compute_rolling_returns`,
lines 163-181). `closes[:-window]` is `take (length - window)` and
`closes[window:]` is `drop window` for `window ≥ 1`; the elementwise numpy
expression `(end_prices - start_prices) / start_prices` is a `zipWith`. -/

def rollingReturns (closes : List ℚ) (window : ℕ) : List ℚ :=
  if closes.length ≤ window then []
  else
    List.zipWith (fun s e => (e - s) / s)
      (closes.take (closes.length - window)) (closes.drop window)

/-! ## Catalyst calendar
(`app/services/catalyst_service.py`, `_generate_mock_events`, lines 38-83,
and `CatalystService.get_catalyst_snapshot`, lines 93-107). -/

inductive CatalystType where
  | earnings
  | dividend
  | split
  | fed
  | cpi
  | ppi
  | sector
deriving DecidableEq, Repr

inductive Confidence where
  | high
  | medium
  | low
deriving DecidableEq, Repr

structure CatalystEvent where
  type : CatalystType
  ticker : Option String
  date : ℤ
  confidence : Confidence
deriving DecidableEq, Repr

/-- A UTC instant split into a calendar day index and the seconds already
elapsed on that day (`0 ≤ secOfDay < 86400`). -/
structure UtcTime where
  day : ℤ
  secOfDay : ℤ
deriving DecidableEq, Repr

def UtcTime.toSeconds (t : UtcTime) : ℤ := t.day * 86400 + t.secOfDay

/-- Embedding of `_generate_mock_events(now)`: `base` is `now` with the
time of day replaced by 13:00 UTC, and the seven events are appended in
source order with day offsets 1, 2, 5, 9, 12, 13 and finally 4. -/
def generateMockEvents (now : UtcTime) : List CatalystEvent :=
  let base : ℤ := now.day * 86400 + 13 * 3600
  [ { type := .earnings, ticker := some "UNH", date := base + 1 * 86400, confidence := .high },
    { type := .dividend, ticker := some "AAPL", date := base + 2 * 86400, confidence := .medium },
    { type := .split, ticker := some "NVDA", date := base + 5 * 86400, confidence := .medium },
    { type := .fed, ticker := none, date := base + 9 * 86400, confidence := .high },
    { type := .cpi, ticker := none, date := base + 12 * 86400, confidence := .high },
    { type := .ppi, ticker := none, date := base + 13 * 86400, confidence := .medium },
    { type := .sector, ticker := some "XLK", date := base + 4 * 86400, confidence := .medium } ]

/-- Source identifier constant `SOURCE = "mock"` of the catalyst service. -/
def catalystServiceSource : String := "mock"

/-- Snapshot returned by `CatalystService.get_catalyst_snapshot` on a
cache miss: the freshly generated events, the generation instant, and the
literal source `"mock"`. -/
structure CatalystSnapshot where
  events : List CatalystEvent
  timestamp : ℤ
  source : String
deriving DecidableEq, Repr

def mkCatalystSnapshot (events : List CatalystEvent) (now : ℤ) : CatalystSnapshot :=
  { events := events, timestamp := now, source := catalystServiceSource }

/-! ## News date filter
(`app/services/news_service.py`, `NewsService._filter_by_date`,
lines 85-102, and `_QueryContext.macro_theme`, lines 37-45).
Publication instants are integer seconds; `timedelta(days=d)` is
`d * 86400` seconds. -/

structure NewsItem where
  title : String
  summary : String
  publishedAt : ℤ
deriving DecidableEq, Repr

structure QueryContext where
  ticker : Option String
  sector : Option String
deriving DecidableEq, Repr

/-- `_QueryContext.macro_theme`: no ticker but a sector is given. -/
def QueryContext.macroTheme (ctx : QueryContext) : Bool :=
  ctx.ticker.isNone && ctx.sector.isSome

def primaryWindowDays : ℤ := 7
def macroFallbackMinDays : ℤ := 30
def macroFallbackMaxDays : ℤ := 60

/-- Items published within the last 7 days: `published_at >= now - 7 days`
(the code places no upper bound; provider timestamps are in the past). -/
def recentNewsFilter (now : ℤ) (items : List NewsItem) : List NewsItem :=
  items.filter (fun item => decide (now - primaryWindowDays * 86400 ≤ item.publishedAt))

/-- Items in the widened macro window, published between 60 and 30 days
ago (inclusive bounds, as in the code). -/
def macroFallbackNewsFilter (now : ℤ) (items : List NewsItem) : List NewsItem :=
  items.filter (fun item =>
    decide (now - macroFallbackMaxDays * 86400 ≤ item.publishedAt ∧
            item.publishedAt ≤ now - macroFallbackMinDays * 86400))

/-- Embedding of `_filter_by_date`: return the 7-day items; only when
that list is empty and the query is a macro theme (no ticker, sector
given), fall back to the 30-60-day window. -/
def filterByDate (now : ℤ) (items : List NewsItem) (ctx : QueryContext) : List NewsItem :=
  let recentItems := recentNewsFilter now items
  if recentItems ≠ [] ∨ ctx.macroTheme = false then recentItems
  else macroFallbackNewsFilter now items

/-! ## Symbol normalization
(`app/models/outlook.py` lines 30-34, `app/models/pattern.py` lines
30-33, `app/models/explain.py` lines 95-99: each validator returns
`v.upper().strip()`). Characters are modelled as codepoints; `upper`
maps the ASCII lowercase range to uppercase and `strip` removes ASCII
whitespace from both ends. -/

/-- Uppercasing of one character: codepoints 97-122 map down by 32. -/
def pyUpperChar (c : ℕ) : ℕ :=
  if 97 ≤ c ∧ c ≤ 122 then c - 32 else c

/-- Whitespace characters removed by `str.strip()`. -/
def isPySpace (c : ℕ) : Bool :=
  decide (c = 32 ∨ c = 9 ∨ c = 10 ∨ c = 13 ∨ c = 11 ∨ c = 12)

def pyLStrip (l : List ℕ) : List ℕ := l.dropWhile isPySpace

def pyRStrip (l : List ℕ) : List ℕ := (l.reverse.dropWhile isPySpace).reverse

/-- `str.strip()`: remove whitespace at both ends. -/
def pyStrip (l : List ℕ) : List ℕ := pyRStrip (pyLStrip l)

/-- The shared schema-boundary normalization `v.upper().strip()`. -/
def normalizeSymbol (l : List ℕ) : List ℕ := pyStrip (l.map pyUpperChar)

/-! ## Behavior pattern engine
(`app/services/pattern_engine.py`: `_CONTEXT_SYNONYMS` lines 23-32,
`_compute_window_metrics` lines 70-101, `_build_pattern` lines 102-126,
`_select_window_indices` / `_matches_context` / `_context_matcher` /
`_normalize_context` / `_build_notes` lines 128-181). The fixed window
size is 5, so the window count `len(points) - 5 + 1`, clamped at zero,
is `points.length - 4` in truncated natural subtraction. -/

structure TradingDate where
  year : ℤ
  month : ℕ
deriving DecidableEq, Repr, Inhabited

structure HistoryPoint where
  date : TradingDate
  close : ℚ
  high : ℚ
  low : ℚ
deriving DecidableEq, Repr, Inhabited

/-- The `_CONTEXT_SYNONYMS` table; unknown tags map to themselves. -/
def contextSynonym (tag : String) : String :=
  if tag = "earnings" then "earnings"
  else if tag = "earnings period" then "earnings"
  else if tag = "earnings week" then "earnings"
  else if tag = "fed" then "fed week"
  else if tag = "fed week" then "fed week"
  else if tag = "fomc" then "fed week"
  else if tag = "high inflation" then "high inflation"
  else if tag = "inflation" then "high inflation"
  else if tag = "cpi" then "high inflation"
  else tag

/-- `_context_matcher`: calendar predicate for a recognized tag, `none`
for unrecognized tags. -/
def contextMatcher (tag : String) : Option (TradingDate → Bool) :=
  let normalized := contextSynonym tag
  if normalized = "earnings" then
    some (fun d => decide (d.month = 1 ∨ d.month = 4 ∨ d.month = 7 ∨ d.month = 10))
  else if normalized = "fed week" then
    some (fun d => decide (d.month = 1 ∨ d.month = 3 ∨ d.month = 5 ∨ d.month = 6 ∨
                           d.month = 7 ∨ d.month = 9 ∨ d.month = 11 ∨ d.month = 12))
  else if normalized = "high inflation" then
    some (fun d => decide (d.year = 2021 ∨ d.year = 2022))
  else none

/-- `_matches_context`: a date matches when every recognized tag's
predicate holds (unrecognized tags contribute no predicate). -/
def matchesContext (d : TradingDate) (tags : List String) : Bool :=
  (tags.filterMap contextMatcher).all (fun m => m d)

/-- `_normalize_context`: trim and lowercase each raw tag, drop empties,
apply the synonym table, then `sorted(set(...))`. -/
def normalizeContext (context : List String) : List String :=
  (((context.map (fun raw => raw.trim.toLower)).filter
      (fun cleaned => decide (cleaned ≠ ""))).map contextSynonym).dedup.mergeSort
    (fun a b => decide (a ≤ b))

/-- `_select_window_indices` for the fixed window size 5. -/
def selectWindowIndices (points : List HistoryPoint) (context : List String) : List ℕ :=
  let normalized := normalizeContext context
  if normalized = [] then List.range (points.length - 4)
  else
    (List.range (points.length - 4)).filter
      (fun idx => matchesContext (points.getD idx default).date normalized)

def windowSlice (points : List HistoryPoint) (idx : ℕ) : List HistoryPoint :=
  (points.drop idx).take 5

/-- Return of one 5-point window: `(close_end - close_start)/close_start`,
0 when the start close is 0. -/
def windowReturn (w : List HistoryPoint) : ℚ :=
  let startPrice := (w.headD default).close
  let endPrice := (w.getLastD default).close
  if startPrice = 0 then 0 else (endPrice - startPrice) / startPrice

/-- Swing range of one 5-point window:
`(max high - min low)/close_start`, 0 when the start close is 0. -/
def windowRange (w : List HistoryPoint) : ℚ :=
  let startPrice := (w.headD default).close
  let maxHigh := ((w.map (fun p => p.high)).max?).getD 0
  let minLow := ((w.map (fun p => p.low)).min?).getD 0
  if startPrice = 0 then 0 else (maxHigh - minLow) / startPrice

/-- `_compute_window_metrics`: window returns and ranges for every
rolling 5-point window. -/
def computeWindowMetrics (points : List HistoryPoint) : List ℚ × List ℚ :=
  ((List.range (points.length - 4)).map (fun idx => windowReturn (windowSlice points idx)),
   (List.range (points.length - 4)).map (fun idx => windowRange (windowSlice points idx)))

/-- Median as computed by `statistics.median` / `numpy.median`. -/
def medianQ (l : List ℚ) : ℚ :=
  let sorted := l.mergeSort (fun a b => decide (a ≤ b))
  let n := l.length
  if n = 0 then 0
  else if n % 2 = 1 then sorted.getD (n / 2) 0
  else (sorted.getD (n / 2 - 1) 0 + sorted.getD (n / 2) 0) / 2

structure BehaviorPattern where
  sampleSize : ℕ
  winRate : ℚ
  typicalRange : ℚ
  maxMove : ℚ
  notes : String
deriving DecidableEq, Repr

/-- `_build_notes`. -/
def buildNotes (context : List String) (filtered : Bool) : String :=
  let normalized := normalizeContext context
  if normalized = [] then "Behavior summarized across broader historical windows."
  else
    let readable := String.intercalate ", " normalized
    if filtered then
      "Behavior clustered around " ++ readable ++ " windows; descriptive context only."
    else
      "No direct matches for " ++ readable ++ "; using broader history for context only."

/-- Embedding of `_build_pattern`: select context-matching windows, fall
back to all windows when the match set is empty, then aggregate. -/
def buildPattern (points : List HistoryPoint) (context : List String) : BehaviorPattern :=
  let returns := (computeWindowMetrics points).1
  let ranges := (computeWindowMetrics points).2
  let selected := selectWindowIndices points context
  let indices := if selected = [] then List.range returns.length else selected
  let selectedReturns := indices.map (fun i => returns.getD i 0)
  let selectedRanges := indices.map (fun i => ranges.getD i 0)
  let sampleSize := selectedReturns.length
  let winRate :=
    if sampleSize = 0 then 0
    else ((selectedReturns.filter (fun r => decide (0 < r))).length : ℚ) / sampleSize
  let typicalRange := if sampleSize = 0 then 0 else medianQ selectedRanges
  let maxMove :=
    if sampleSize = 0 then 0
    else ((selectedReturns.map (fun r => |r|)).max?).getD 0
  { sampleSize := sampleSize
    winRate := roundTo winRate 2
    typicalRange := roundTo typicalRange 4
    maxMove := roundTo maxMove 4
    notes := buildNotes context (decide (selected ≠ [])) }

/-! ## Ticker service mock paths
(`app/services/ticker_service.py`: `_MOCK_TICKERS` lines 59-150,
`_get_mock_snapshot` lines 320-338, `_get_mock_history` lines 340-404)
and the response model `TickerSnapshot`
(`app/models/ticker.py` lines 63-96, whose `timestamp` and `source`
fields are declared required) and `PriceHistory` (lines 108-133,
likewise with required `timestamp` and `source`). -/

inductive ServiceError where
  /-- `TickerNotFoundError`, carrying HTTP status 404. -/
  | notFound
  /-- An uncaught pydantic validation error while building a response
  model (surfaces as HTTP 500). -/
  | validationFailure
deriving DecidableEq, Repr

/-- The keys of the `_MOCK_TICKERS` table. -/
def mockTickerSymbols : List String :=
  ["NVDA", "AAPL", "MSFT", "GOOGL", "AMZN", "META", "TSLA", "SPY", "QQQ", "AMD"]

/-- Fields of `TickerSnapshot` declared with `Field(...)` and no
default. -/
def tickerSnapshotRequiredFields : List String :=
  ["ticker", "company_name", "sector", "market_cap", "volatility", "summary",
   "timestamp", "source"]

/-- Field names passed to the `TickerSnapshot(...)` constructor call in
`_get_mock_snapshot` (lines 327-338). -/
def mockSnapshotPassedFields : List String :=
  ["ticker", "company_name", "sector", "market_cap", "volatility", "summary",
   "current_price", "change_percent", "week_52_high", "week_52_low"]

/-- Fields of `PriceHistory` declared with `Field(...)` and no default. -/
def priceHistoryRequiredFields : List String :=
  ["ticker", "points", "current_price", "change", "change_percent",
   "timestamp", "source"]

/-- Field names passed to the `PriceHistory(...)` constructor call in
`_get_mock_history` (lines 398-404). -/
def mockHistoryPassedFields : List String :=
  ["ticker", "points", "current_price", "change", "change_percent"]

/-- pydantic model construction: succeeds only when every required field
is among the passed fields. -/
def constructModel (required provided : List String) : Except ServiceError Unit :=
  if requiredFieldsCovered required provided then .ok () else .error .validationFailure

/-- Embedding of `_get_mock_snapshot`: unknown symbols raise
`TickerNotFoundError`; known symbols attempt to build a
`TickerSnapshot` from the passed fields. -/
def getMockSnapshot (symbol : String) : Except ServiceError Unit :=
  if symbol ∈ mockTickerSymbols then
    constructModel tickerSnapshotRequiredFields mockSnapshotPassedFields
  else .error .notFound

/-- Embedding of `_get_mock_history`: unknown symbols raise
`TickerNotFoundError`; known symbols attempt to build a `PriceHistory`
from the passed fields. -/
def getMockHistory (symbol : String) : Except ServiceError Unit :=
  if symbol ∈ mockTickerSymbols then
    constructModel priceHistoryRequiredFields mockHistoryPassedFields
  else .error .notFound

/-! ## Price provider mock path
(`app/providers/price_provider.py`: `_MOCK_PRICES` lines 72-78,
`_get_mock_price` lines 155-190). Random draws (the base price for an
unknown symbol, the jitter factor, volume, market cap) are explicit
parameters. -/

structure PriceData where
  ticker : String
  currentPrice : ℚ
  previousClose : ℚ
  change : ℚ
  changePercent : ℚ
  dayHigh : ℚ
  dayLow : ℚ
  week52High : ℚ
  week52Low : ℚ
  volume : ℤ
  marketCap : Option ℤ
deriving DecidableEq, Repr

/-- One row of `_MOCK_PRICES`: price, prev, high, low, w52h, w52l. -/
structure MockPriceRow where
  price : ℚ
  prev : ℚ
  high : ℚ
  low : ℚ
  w52h : ℚ
  w52l : ℚ
deriving DecidableEq, Repr

def mockPriceTable : List (String × MockPriceRow) :=
  [ ("AAPL", ⟨185, 183.5, 186.2, 184.1, 231.25, 138.75⟩),
    ("NVDA", ⟨485, 478, 490.5, 476.3, 520, 220⟩),
    ("SPY", ⟨475, 473.2, 476.8, 472.5, 495, 410⟩),
    ("QQQ", ⟨405, 402.5, 407.3, 401.2, 430, 340⟩),
    ("TSLA", ⟨245, 248, 252, 243.5, 290, 150⟩) ]

/-- Embedding of `_get_mock_price`: a known symbol uses its table row;
an unknown symbol synthesizes a plausible profile from the random
`base`. Unlike the ticker service mock paths, this never raises. -/
def getMockPrice (symbol : String) (base jitter : ℚ) (volume marketCap : ℤ) : PriceData :=
  let mock : MockPriceRow :=
    ((mockPriceTable.lookup symbol).getD
      ⟨base, base * (99 / 100), base * (102 / 100), base * (98 / 100),
       base * (125 / 100), base * (75 / 100)⟩)
  let price := mock.price * jitter
  let prev := mock.prev
  let change := price - prev
  { ticker := symbol
    currentPrice := roundTo price 2
    previousClose := roundTo prev 2
    change := roundTo change 2
    changePercent := roundTo (change / prev * 100) 2
    dayHigh := roundTo mock.high 2
    dayLow := roundTo mock.low 2
    week52High := roundTo mock.w52h 2
    week52Low := roundTo mock.w52l 2
    volume := volume
    marketCap := some marketCap }

/-! ## The `/explain` response wiring
(`app/api/ai.py` lines 1-45: the router declares
`response_model=AIResponse` imported from `app.models.explain`;
`app/services/ai_service.py` lines 342-348: the service constructs the
five-field `AIResponse` imported from `app.models.ai`). FastAPI
validates the returned object against the declared response model;
a missing required field raises a response-validation error, which
surfaces as HTTP 500. -/

/-- Fields of the object built by `AIService.generate_explanation`
(`app/models/ai.py`: the model has exactly these five fields). -/
def aiServiceResponseFields : List String :=
  ["whats_happening_now", "key_drivers", "risk_vs_opportunity",
   "historical_behavior", "simple_recap"]

/-- Required fields of the response model the router declares
(`app/models/explain.py` lines 113-152: every field except `symbol` is
declared with `Field(...)` and no default). -/
def explainRouterResponseRequiredFields : List String :=
  ["question", "whats_happening_now", "key_drivers", "risk_vs_opportunity",
   "historical_behavior", "simple_recap", "generated_at"]

/-- HTTP status of a syntactically valid `POST /explain` request: 200
when the object the service returns satisfies the response model the
router declares, otherwise 500 from the response-validation error. -/
def explainEndpointStatus : ℕ :=
  if requiredFieldsCovered explainRouterResponseRequiredFields aiServiceResponseFields
  then 200 else 500

/-! ## Outlook composer metadata wrapper
(`app/api/outlook.py` lines 43-52 calls
`outlook_composer.compose_outlook_with_meta(ticker)`; the response
models `OutlookComposerWithMeta` / `OutlookComposerTimestamps` /
`OutlookComposerSources` are `app/models/outlook.py` lines 185-217;
the endpoint test `test_outlook_composer_with_metadata` exercises it.)
The pattern metadata comes from `PatternSnapshot`
(`app/services/pattern_engine.py` lines 56-70 and 184-190: timestamp
and source are copied from the history provider result). -/

/-- Fetch metadata of one provider result: its timestamp and source. -/
structure FetchMeta where
  timestamp : ℤ
  source : String
deriving DecidableEq, Repr

/-- Embedding of `PatternSnapshot` as built by
`compute_pattern_snapshot`: the pattern plus the history provider
result's timestamp and source. -/
structure PatternSnapshot where
  pattern : BehaviorPattern
  timestamp : ℤ
  source : String
deriving DecidableEq, Repr

def mkPatternSnapshot (points : List HistoryPoint) (context : List String)
    (history : FetchMeta) : PatternSnapshot :=
  { pattern := buildPattern points context
    timestamp := history.timestamp
    source := history.source }

/-- `OutlookComposerTimestamps` (`app/models/outlook.py` lines 195-203). -/
structure ComposerTimestamps where
  snapshot : ℤ
  history : ℤ
  catalysts : ℤ
  news : ℤ
  patterns : ℤ
  generatedAt : ℤ
deriving DecidableEq, Repr

/-- `OutlookComposerSources` (`app/models/outlook.py` lines 185-192). -/
structure ComposerSources where
  snapshot : String
  history : String
  catalysts : String
  news : String
  patterns : String
deriving DecidableEq, Repr

/-- `OutlookComposerWithMeta` (`app/models/outlook.py` lines 206-217);
the narrative payload is abbreviated to the fields the metadata claim
touches. -/
structure OutlookComposerWithMeta where
  ticker : String
  bigPicture : String
  whatCouldMoveIt : List CatalystEvent
  historicalBehavior : BehaviorPattern
  timestamps : ComposerTimestamps
  dataSources : ComposerSources
deriving DecidableEq, Repr

/-- Modelled from the spec: `OutlookComposer.compose_outlook_with_meta`
is called by the `GET /outlook/{ticker}` router and exercised by the
endpoint test, but its definition is missing from the source tree (only
`compose_outlook` is present). Following section 4.12 step 7 of the
spec, the metadata wrapper adds each component's own fetch timestamp
plus an overall `generated_at = now`, and per-component source
identifiers: snapshot and history from the price/history providers,
catalysts from the catalyst snapshot (literally `"mock"`), news from
the news provider, and patterns from the history provider result
backing the pattern computation. -/
def composeOutlookWithMeta (ticker : String) (snap hist news : FetchMeta)
    (catalystSnap : CatalystSnapshot) (patternSnap : PatternSnapshot)
    (bigPicture : String) (catalysts : List CatalystEvent) (now : ℤ) :
    OutlookComposerWithMeta :=
  { ticker := ticker
    bigPicture := bigPicture
    whatCouldMoveIt := catalysts
    historicalBehavior := patternSnap.pattern
    timestamps :=
      { snapshot := snap.timestamp
        history := hist.timestamp
        catalysts := catalystSnap.timestamp
        news := news.timestamp
        patterns := patternSnap.timestamp
        generatedAt := now }
    dataSources :=
      { snapshot := snap.source
        history := hist.source
        catalysts := catalystSnap.source
        news := news.source
        patterns := patternSnap.source } }

/-! ## Helper lemmas -/

theorem pyUpperChar_idem (c : ℕ) : pyUpperChar (pyUpperChar c) = pyUpperChar c := by
  unfold pyUpperChar
  split_ifs <;> omega

theorem isPySpace_pyUpperChar (c : ℕ) : isPySpace (pyUpperChar c) = isPySpace c := by
  unfold pyUpperChar isPySpace
  split_ifs with h
  · rw [decide_eq_decide]
    omega
  · rfl

theorem map_pyUpperChar_idem (l : List ℕ) :
    (l.map pyUpperChar).map pyUpperChar = l.map pyUpperChar := by
  rw [List.map_map]
  exact List.map_congr_left (fun c _ => pyUpperChar_idem c)

theorem pyLStrip_map (l : List ℕ) :
    pyLStrip (l.map pyUpperChar) = (pyLStrip l).map pyUpperChar := by
  unfold pyLStrip
  rw [List.dropWhile_map]
  have hfun : (isPySpace ∘ pyUpperChar) = isPySpace := funext isPySpace_pyUpperChar
  rw [hfun]

theorem pyRStrip_map (l : List ℕ) :
    pyRStrip (l.map pyUpperChar) = (pyRStrip l).map pyUpperChar := by
  unfold pyRStrip
  rw [← List.map_reverse, List.dropWhile_map]
  have hfun : (isPySpace ∘ pyUpperChar) = isPySpace := funext isPySpace_pyUpperChar
  rw [hfun, ← List.map_reverse]

theorem pyStrip_map (l : List ℕ) :
    pyStrip (l.map pyUpperChar) = (pyStrip l).map pyUpperChar := by
  unfold pyStrip
  rw [pyLStrip_map, pyRStrip_map]

theorem dropWhile_self_idem (p : α → Bool) (l : List α) :
    (l.dropWhile p).dropWhile p = l.dropWhile p := by
  induction l with
  | nil => rfl
  | cons x xs ih =>
    by_cases h : p x
    · rw [List.dropWhile_cons_of_pos h]
      exact ih
    · rw [List.dropWhile_cons_of_neg h, List.dropWhile_cons_of_neg h]

theorem pyLStrip_idem (l : List ℕ) : pyLStrip (pyLStrip l) = pyLStrip l :=
  dropWhile_self_idem isPySpace l

theorem pyRStrip_idem (l : List ℕ) : pyRStrip (pyRStrip l) = pyRStrip l := by
  unfold pyRStrip
  rw [List.reverse_reverse, dropWhile_self_idem]

theorem pyLStrip_pyRStrip_pyLStrip (l : List ℕ) :
    pyLStrip (pyRStrip (pyLStrip l)) = pyRStrip (pyLStrip l) := by
  rcases hA : pyLStrip l with _ | ⟨x, xs⟩
  · simp [pyRStrip, pyLStrip]
  · have h0 := List.head?_dropWhile_not isPySpace l
    have hx : isPySpace x = false := by
      unfold pyLStrip at hA
      rw [hA] at h0
      simpa using h0
    unfold pyRStrip
    rw [List.reverse_cons, List.dropWhile_append]
    split
    · rw [List.dropWhile_cons_of_neg (by simp [hx])]
      simp [pyLStrip, List.dropWhile_cons, hx]
    · rw [List.reverse_append, List.reverse_cons, List.reverse_nil, List.nil_append,
        List.cons_append, List.nil_append]
      unfold pyLStrip
      rw [List.dropWhile_cons_of_neg (by simp [hx])]

theorem pyStrip_idem (l : List ℕ) : pyStrip (pyStrip l) = pyStrip l := by
  show pyRStrip (pyLStrip (pyRStrip (pyLStrip l))) = pyStrip l
  rw [pyLStrip_pyRStrip_pyLStrip, pyRStrip_idem]
  rfl

/-! ## Claim theorems -/

/-- Claim C1: the claim states that every syntactically valid
`POST /explain` request returns HTTP 200 with all five narrative fields
non-empty, never a 500. On the code this fails: the service constructs
the five-field `AIResponse` of `app/models/ai.py`, while the router
declares the `AIResponse` of `app/models/explain.py` as its response
model, whose required fields also include `question` and `generated_at`;
response validation therefore fails and every valid request surfaces as
HTTP 500. The repository's own tests (`test_explain_with_symbol`,
`test_explain_fallback_prevents_500`) expect 200, so the claim reflects
the intent and the code is wrong. -/
theorem explain_endpoint_returns_500 :
    explainEndpointStatus = 500 ∧ aiServiceResponseFields.contains "question" = false := by
  constructor <;> decide

/-- Claim C2: for every ticker, the composed outlook metadata wrapper
carries per-component timestamps (snapshot, history, catalysts, news,
patterns, plus `generated_at` = now) and per-component data-source
identifier strings for all five components: snapshot and history from
the providers, catalysts literally `"mock"`, news from the news
provider, and patterns from the history provider result backing the
pattern computation. Proved against `composeOutlookWithMeta`, which is
modelled from the spec because the method is missing from the source
tree. -/
theorem composer_meta_carries_component_metadata (ticker : String)
    (snap hist news : FetchMeta) (events : List CatalystEvent) (catalystNow : ℤ)
    (points : List HistoryPoint) (context : List String)
    (bigPicture : String) (catalysts : List CatalystEvent) (now : ℤ) :
    (composeOutlookWithMeta ticker snap hist news (mkCatalystSnapshot events catalystNow)
        (mkPatternSnapshot points context hist) bigPicture catalysts now).timestamps =
      ⟨snap.timestamp, hist.timestamp, catalystNow, news.timestamp, hist.timestamp, now⟩ ∧
    (composeOutlookWithMeta ticker snap hist news (mkCatalystSnapshot events catalystNow)
        (mkPatternSnapshot points context hist) bigPicture catalysts now).dataSources =
      ⟨snap.source, hist.source, "mock", news.source, hist.source⟩ := ⟨rfl, rfl⟩

/-- Claim C3: the claim states that for every recognized symbol,
`TickerService.get_snapshot` returns (does not fail) a `TickerSnapshot`
including a fetch timestamp and a source identifier. On the code this
fails even for the recognized symbol `AAPL`: `_get_mock_snapshot` never
passes the required `timestamp` and `source` fields to the
`TickerSnapshot` constructor, so pydantic raises a validation error
instead of returning a snapshot. The model declaration and the endpoint
test `test_get_ticker_snapshot` (expecting 200) show the claim reflects
the intent and the code is wrong. -/
theorem mock_snapshot_missing_required_fields :
    getMockSnapshot "AAPL" = .error .validationFailure ∧ "AAPL" ∈ mockTickerSymbols := by
  refine ⟨?_, by decide⟩
  rfl

/-- Claim C4: the claim states that every generated catalyst list has
all dates strictly in the future and is already in non-decreasing date
order at construction time. On the code the first half holds but the
second fails at every generation instant (shown here at day 0, second
0): the sector event for XLK is appended last with a +4 day offset,
after the PPI event at +13 days. The repository's own test
`test_catalyst_events_are_sorted_chronologically` asserts sortedness,
so the claim reflects the intent and the code is wrong. -/
theorem catalyst_events_future_but_unsorted :
    (∀ e ∈ generateMockEvents ⟨0, 0⟩, UtcTime.toSeconds ⟨0, 0⟩ < e.date) ∧
    ¬ List.Sorted (· ≤ ·) ((generateMockEvents ⟨0, 0⟩).map CatalystEvent.date) := by
  constructor
  · decide
  · decide

/-- Claim C5: for all (hit_rate, recent_90d_return) pairs, the sentiment
is positive iff hit_rate > 0.55 and the recent return is positive,
cautious iff hit_rate < 0.45 or the recent return is below -0.10, and
mixed exactly in the remaining cases; the three characterizations are
mutually exclusive and exhaustive. -/
theorem sentiment_characterization (hr rr : ℚ) :
    (determineSentiment hr rr = .positive ↔ (55 / 100 < hr ∧ 0 < rr)) ∧
    (determineSentiment hr rr = .cautious ↔ (hr < 45 / 100 ∨ rr < -(10 / 100))) ∧
    (determineSentiment hr rr = .mixed ↔
      ¬(55 / 100 < hr ∧ 0 < rr) ∧ ¬(hr < 45 / 100 ∨ rr < -(10 / 100))) := by
  unfold determineSentiment
  split_ifs with h1 h2
  · refine ⟨by simp [h1], ?_, ?_⟩
    · simp only [reduceCtorEq, false_iff]
      rintro (h | h)
      · linarith [h1.1]
      · linarith [h1.2]
    · simp only [reduceCtorEq, false_iff]
      intro h
      exact h.1 h1
  · refine ⟨by simp [h1], by simp [h2], ?_⟩
    simp only [reduceCtorEq, false_iff]
    intro h
    exact h.2 h2
  · exact ⟨by simp [h1], by simp [h2], by simp [h1, h2]⟩

/-- Claim C6: for every close series and every positive window size, the
rolling-return list is empty whenever the series is not strictly longer
than the window, and otherwise its entry at each valid start index `i`
equals `(close[i+window] - close[i]) / close[i]`. -/
theorem rolling_returns_spec (closes : List ℚ) (window : ℕ) (hw : 0 < window) :
    (closes.length ≤ window → rollingReturns closes window = []) ∧
    (∀ i, ∀ h1 : i + window < closes.length,
      (rollingReturns closes window)[i]? =
        some ((closes[i + window] - closes[i]) / closes[i])) := by
  constructor
  · intro h
    simp [rollingReturns, h]
  · intro i h1
    have hi : i < closes.length := by omega
    have hlen : ¬ closes.length ≤ window := by omega
    simp only [rollingReturns, if_neg hlen]
    rw [List.getElem?_zipWith]
    rw [List.getElem?_take_of_lt (by omega), List.getElem?_drop]
    rw [List.getElem?_eq_getElem hi,
      List.getElem?_eq_getElem (by omega : window + i < closes.length)]
    simp [Nat.add_comm]

/-- Witness for C6: on the close series `[100, 110, 121]` with window 1,
the rolling return at index 1 is `(121 - 110)/110 = 1/10`. -/
theorem rolling_returns_spec_witness :
    0 < 1 ∧ (rollingReturns [(100 : ℚ), 110, 121] 1)[1]? = some (1 / 10) := by
  refine ⟨by decide, ?_⟩
  have h := (rolling_returns_spec [(100 : ℚ), 110, 121] 1 (by decide)).2 1 (by decide)
  norm_num at h
  exact h

/-- Claim C7: the news date filter keeps exactly the items published
within the last 7 days; only a ticker-free query with a sector (macro
theme) whose 7-day filter is empty falls back to the items published
between 30 and 60 days ago; a ticker query with nothing in the last 7
days yields an empty result. -/
theorem news_date_filter_spec (now : ℤ) (items : List NewsItem) (ctx : QueryContext) :
    (recentNewsFilter now items ≠ [] ∨ ctx.macroTheme = false →
      filterByDate now items ctx = recentNewsFilter now items) ∧
    (ctx.ticker = none → ctx.sector.isSome = true → recentNewsFilter now items = [] →
      filterByDate now items ctx = macroFallbackNewsFilter now items) ∧
    (ctx.ticker.isSome = true → recentNewsFilter now items = [] →
      filterByDate now items ctx = []) := by
  refine ⟨?_, ?_, ?_⟩
  · intro h
    simp only [filterByDate]
    rw [if_pos h]
  · intro ht hs hr
    have hm : ctx.macroTheme = true := by
      simp [QueryContext.macroTheme, ht, hs]
    simp [filterByDate, hr, hm]
  · intro ht hr
    have hm : ctx.macroTheme = false := by
      simp [QueryContext.macroTheme, Option.isNone_iff_eq_none]
      intro hn
      rw [hn] at ht
      simp at ht
    simp [filterByDate, hr, hm]

/-- Witness for C7: a ticker-scoped query whose only item is 61 days old
returns the empty list (no macro fallback applies). -/
theorem news_date_filter_spec_witness :
    filterByDate 0 [⟨"t", "s", -(61 * 86400)⟩] ⟨some "AAPL", none⟩ = [] :=
  (news_date_filter_spec 0 [⟨"t", "s", -(61 * 86400)⟩] ⟨some "AAPL", none⟩).2.2
    (by decide) (by decide)

/-- Claim C8: the schema-boundary symbol normalization
`v.upper().strip()` is idempotent: applying it twice to any input string
yields the same result as applying it once. -/
theorem normalize_symbol_idempotent (l : List ℕ) :
    normalizeSymbol (normalizeSymbol l) = normalizeSymbol l := by
  unfold normalizeSymbol
  rw [pyStrip_map (pyStrip (l.map pyUpperChar)), pyStrip_idem, ← pyStrip_map,
    map_pyUpperChar_idem]

/-- Claim C9: whenever the pattern engine succeeds (at least 6 history
points), the built pattern has `sample_size ≥ 1`: the all-windows
fallback list has at least two entries, so the aggregates are never
computed over an empty sample. -/
theorem pattern_sample_size_positive (points : List HistoryPoint) (context : List String)
    (h : 6 ≤ points.length) :
    1 ≤ (buildPattern points context).sampleSize ∧ 2 ≤ points.length - 4 := by
  refine ⟨?_, by omega⟩
  simp only [buildPattern, List.length_map]
  split_ifs with hsel
  · simp only [computeWindowMetrics, List.length_range, List.length_map]
    omega
  · exact List.length_pos.mpr hsel

/-- Witness for C9: a concrete 6-point history with the context tag
`fomc` yields a pattern with a positive sample size. -/
theorem pattern_sample_size_positive_witness :
    6 ≤ ([⟨⟨2021, 1⟩, 100, 101, 99⟩, ⟨⟨2021, 2⟩, 102, 103, 100⟩,
          ⟨⟨2021, 3⟩, 101, 102, 99⟩, ⟨⟨2021, 4⟩, 103, 104, 100⟩,
          ⟨⟨2021, 5⟩, 104, 105, 101⟩, ⟨⟨2021, 6⟩, 102, 104, 100⟩] :
            List HistoryPoint).length ∧
    1 ≤ (buildPattern
          [⟨⟨2021, 1⟩, 100, 101, 99⟩, ⟨⟨2021, 2⟩, 102, 103, 100⟩,
           ⟨⟨2021, 3⟩, 101, 102, 99⟩, ⟨⟨2021, 4⟩, 103, 104, 100⟩,
           ⟨⟨2021, 5⟩, 104, 105, 101⟩, ⟨⟨2021, 6⟩, 102, 104, 100⟩]
          ["fomc"]).sampleSize :=
  ⟨by decide,
   (pattern_sample_size_positive
      [⟨⟨2021, 1⟩, 100, 101, 99⟩, ⟨⟨2021, 2⟩, 102, 103, 100⟩,
       ⟨⟨2021, 3⟩, 101, 102, 99⟩, ⟨⟨2021, 4⟩, 103, 104, 100⟩,
       ⟨⟨2021, 5⟩, 104, 105, 101⟩, ⟨⟨2021, 6⟩, 102, 104, 100⟩]
      ["fomc"] (by decide)).1⟩

/-- Claim C10: in mock mode, the ticker service raises the not-found
error (HTTP 404) for every symbol outside its 10-symbol table, for both
snapshot and history, while the price provider mock path synthesizes
data for any symbol and never raises. -/
theorem mock_ticker_unknown_symbol_not_found (s : String) (h : s ∉ mockTickerSymbols) :
    getMockSnapshot s = .error .notFound ∧
    getMockHistory s = .error .notFound ∧
    ∀ base jitter : ℚ, ∀ volume marketCap : ℤ,
      (getMockPrice s base jitter volume marketCap).ticker = s := by
  refine ⟨?_, ?_, ?_⟩
  · simp [getMockSnapshot, h]
  · simp [getMockHistory, h]
  · intro base jitter volume marketCap
    rfl

/-- Witness for C10: the unknown symbol `XYZNOTREAL123` gets a not-found
error from the mock snapshot path while the mock price provider still
produces data for it. -/
theorem mock_ticker_unknown_symbol_not_found_witness :
    getMockSnapshot "XYZNOTREAL123" = .error .notFound ∧
    (getMockPrice "XYZNOTREAL123" 100 1 1000000 1000000000).ticker = "XYZNOTREAL123" :=
  ⟨(mock_ticker_unknown_symbol_not_found "XYZNOTREAL123" (by decide)).1,
   (mock_ticker_unknown_symbol_not_found "XYZNOTREAL123" (by decide)).2.2
     100 1 1000000 1000000000⟩

end DayTrade
